import Mathlib

/-!
Verification of the IoT device metrics reporter agent
(Agent/metrics.py, Agent/decorators.py) against its specification.

The Python source is shallowly embedded: each fallible OS interaction is an
explicit input (file states, environment variables, clock readings, HTTP
responses), exceptions become Except, and decorator state (rate-limiter
timestamp, decoration-time default values) is passed explicitly.
-/

namespace Agent

/-- Python str truthiness for an optional string: None and the empty string
are falsy (`if env_id:` / `if interface:` in metrics.py). -/
def truthyStr : Option String → Bool
  | none => false
  | some s => s ≠ ""

/-- Characters removed by Python str.strip (ASCII whitespace). -/
def pyIsSpace (c : Char) : Bool :=
  c = ' ' ∨ c = '\t' ∨ c = '\n' ∨ c = '\r' ∨ c = '\x0b' ∨ c = '\x0c'

/-- Python str.strip: drop leading and trailing whitespace. -/
def pyStrip (s : String) : String :=
  String.mk (((s.data.dropWhile pyIsSpace).reverse.dropWhile pyIsSpace).reverse)

/-- State of a file as seen by the agent: missing, readable with given
contents, or present but raising on open/read (e.g. permission error). -/
inductive FileState where
  | absent
  | present (contents : String)
  | unreadable
  deriving DecidableEq, Repr

/-- The external world of the identity resolver in metrics.py:
the CONTAINER_ID environment variable, the side file /tmp/container_id.txt,
the host file /etc/machine-id, the next value uuid.uuid4 would produce
(already hyphen-free), whether writing the side file raises, and an event
counter of how many times the body of get_simulated_id has run. -/
structure World where
  containerIdEnv : Option String
  idFile : FileState
  machineId : FileState
  freshUuid : String
  writeFails : Bool
  simCalls : Nat
  deriving DecidableEq, Repr

/-- Body of get_simulated_id (metrics.py lines 17-45), before the
log_exceptions wrapper: check CONTAINER_ID, then the side file, then
generate a fresh id and persist it.  An exception returns the world at the
point of failure (side effects so far persist). -/
def get_simulated_id_body (w0 : World) : Except World (String × World) :=
  let w := { w0 with simCalls := w0.simCalls + 1 }
  if truthyStr w.containerIdEnv then
    .ok (w.containerIdEnv.getD "", w)
  else
    match w.idFile with
    | .unreadable => .error w
    | .present s =>
        if pyStrip s ≠ "" then .ok (pyStrip s, w)
        else
          if w.writeFails then .error w
          else .ok (w.freshUuid, { w with idFile := .present w.freshUuid })
    | .absent =>
        if w.writeFails then .error w
        else .ok (w.freshUuid, { w with idFile := .present w.freshUuid })

/-- get_simulated_id as decorated with log_exceptions(default=None):
any exception is swallowed and None is returned. -/
def get_simulated_id (w : World) : Option String × World :=
  match get_simulated_id_body w with
  | .ok (s, w1) => (some s, w1)
  | .error w1 => (none, w1)

/-- Body of get_device_id (metrics.py lines 48-60): read /etc/machine-id;
a non-empty stripped value is returned; an empty value or FileNotFoundError
falls through to a fresh get_simulated_id call; any other read error
escapes to the log_exceptions wrapper. -/
def get_device_id_body (w : World) : Except World (Option String × World) :=
  match w.machineId with
  | .present s =>
      if pyStrip s ≠ "" then .ok (some (pyStrip s), w)
      else .ok (get_simulated_id w)
  | .absent => .ok (get_simulated_id w)
  | .unreadable => .error w

/-- get_device_id as decorated with log_exceptions(default=defaultV), where
defaultV is the value captured when the decorator was applied. -/
def get_device_id (defaultV : Option String) (w : World) : Option String × World :=
  match get_device_id_body w with
  | .ok r => r
  | .error w1 => (defaultV, w1)

/-- The metrics module after import: the decoration-time default of
get_device_id, and the world after the import-time side effects. -/
structure MetricsModule where
  deviceIdDefault : Option String
  world : World
  deriving DecidableEq, Repr

/-- Importing metrics.py evaluates the decorator argument
log_exceptions(default=get_simulated_id()) once (metrics.py line 47),
running get_simulated_id before any call to get_device_id. -/
def load_metrics_module (w : World) : MetricsModule :=
  let r := get_simulated_id w
  ⟨r.1, r.2⟩

/-- Device-identity resolution as the running agent performs it:
a call to the wrapped get_device_id after module import. -/
def resolve_device_id (w : World) : Option String × World :=
  let m := load_metrics_module w
  get_device_id m.deviceIdDefault m.world

/-! ## Decorator layer (decorators.py) -/

/-- The terminal failure raised by the retry decorator (decorators.py
line 118): its message names the wrapped function and the attempt count. -/
structure TerminalError where
  opName : String
  attempts : Nat
  deriving DecidableEq, Repr

/-- Trace of one run of a retry-wrapped operation: the outcome (result or
terminal error), how many times the wrapped operation was invoked, and the
durations of the sleeps performed (one per failed invocation). -/
structure RetryTrace (A : Type) where
  result : Except TerminalError A
  calls : Nat
  sleeps : List ℚ
  deriving Repr

/-- Loop body of the retry decorator (decorators.py lines 110-118): the
i-th invocation outcome of the wrapped operation is op i; on failure sleep
delay and continue; when the budget is exhausted raise the terminal error
naming the operation and max_retries. -/
def retryLoop {A : Type} (name : String) (delay : ℚ) (maxRetries : Nat)
    (op : Nat → Except String A) : Nat → Nat → RetryTrace A
  | _, 0 => ⟨.error ⟨name, maxRetries⟩, 0, []⟩
  | i, r + 1 =>
      match op i with
      | .ok a => ⟨.ok a, 1, []⟩
      | .error _ =>
          let t := retryLoop name delay maxRetries op (i + 1) r
          ⟨t.result, t.calls + 1, delay :: t.sleeps⟩

/-- A full run of a function wrapped by retry(max_retries, delay)
(decorators.py lines 97-120). -/
def retryRun {A : Type} (name : String) (delay : ℚ) (maxRetries : Nat)
    (op : Nat → Except String A) : RetryTrace A :=
  retryLoop name delay maxRetries op 0 maxRetries

/-- Shared state of the rate_limiter decorator (decorators.py line 42):
the mutable last-call timestamp, initialised to 0.0. -/
structure RLState where
  last_called : ℚ
  deriving DecidableEq, Repr

/-- Initial rate-limiter state at decoration time. -/
def rlInit : RLState := ⟨0⟩

/-- Observable outcome of one call through the rate_limiter wrapper. -/
structure RLCall where
  wait_time : ℚ
  slept : ℚ
  state : RLState
  deriving DecidableEq, Repr

/-- One invocation of a rate_limiter(calls_per_second)-wrapped function
(decorators.py lines 44-54): now is time.time() on entry, finish is
time.time() after the wrapped call returns; the wrapper sleeps the
remaining portion of the interval when positive, then records finish as
the new last-call timestamp. -/
def rate_limiter_call (calls_per_second : ℚ) (s : RLState) (now finish : ℚ) :
    RLCall :=
  let interval := 1 / calls_per_second
  let elapsed := now - s.last_called
  let wait_time := interval - elapsed
  ⟨wait_time, if wait_time > 0 then wait_time else 0, ⟨finish⟩⟩

/-! ## Delivery protocol (metrics.py post_metrics) -/

/-- HTTP method used by the delivery call. -/
inductive Method where
  | patch
  | post
  deriving DecidableEq, Repr

/-- One HTTP request issued by post_metrics: method, endpoint URL and the
snapshot body. -/
structure Request (B : Type) where
  method : Method
  url : String
  body : B
  deriving DecidableEq, Repr

/-- Result of one invocation of the core post_metrics (metrics.py lines
301-333): the requests issued in order, the index (among those requests)
of the response that is returned, and that response status code.  The
collector is an oracle giving the status of the k-th request of this
invocation. -/
def post_metrics {B : Type} (collector : Nat → Nat) (metrics : B)
    (url : String) : List (Request B) × Nat × Nat :=
  let patchReq : Request B := ⟨.patch, url, metrics⟩
  let status := collector 0
  if status = 200 then ([patchReq], 0, status)
  else if status = 404 then
    let createStatus := collector 1
    ([patchReq, ⟨.post, url, metrics⟩], 1, createStatus)
  else ([patchReq], 0, status)

/-- The wrapped delivery operation: post_metrics decorated by
retry(max_retries=5, delay=10.0) around the rate-limited core (metrics.py
lines 299-301).  The collector answers every request with a response, so
the wrapped call never raises and each attempt performs one PATCH/POST
cycle. -/
def deliver {B : Type} (collector : Nat → Nat) (metrics : B)
    (url : String) : RetryTrace (List (Request B) × Nat × Nat) :=
  retryRun "post_metrics" 10 5 (fun _ => .ok (post_metrics collector metrics url))

/-! ## Metric probes (metrics.py) -/

/-- Python round to the nearest integer: round-half-to-even. -/
def pyRound (q : ℚ) : ℤ :=
  let f := ⌊q⌋
  let r := q - (f : ℚ)
  if r < 1 / 2 then f
  else if r > 1 / 2 then f + 1
  else if f % 2 = 0 then f else f + 1

/-- Python round(x, 2): round to 2 decimal places. -/
def round2 (q : ℚ) : ℚ :=
  (pyRound (q * 100) : ℚ) / 100

/-- Computation of get_cpu_usage (metrics.py lines 89-103) from the two
idle/total samples read from /proc/stat: if the total delta is zero return
0.0, else 100 * (1 - idle delta / total delta) rounded to 2 decimals. -/
def get_cpu_usage (idle1 total1 idle2 total2 : ℤ) : ℚ :=
  let idle_delta := idle2 - idle1
  let total_delta := total2 - total1
  if total_delta = 0 then 0
  else round2 (100 * (1 - (idle_delta : ℚ) / (total_delta : ℚ)))

/-- Readability of the four per-interface counter files under
/sys/class/net/(interface)/statistics: some v when the file reads value v,
none when opening or parsing it raises. -/
structure NetFiles where
  rx_bytes : Option Nat
  tx_bytes : Option Nat
  rx_packets : Option Nat
  tx_packets : Option Nat
  deriving DecidableEq, Repr

/-- The dictionary returned by get_network_stats. -/
structure NetStats where
  rx_bytes : Nat
  tx_bytes : Nat
  rx_packets : Nat
  tx_packets : Nat
  deriving DecidableEq, Repr

/-- get_network_stats (metrics.py lines 217-247): the stats dictionary
starts all-zero; the four counter files are read sequentially inside a
single try block, so the first failing read aborts the remaining
assignments and the partially updated dictionary is returned. -/
def get_network_stats (f : NetFiles) : NetStats :=
  let s0 : NetStats := ⟨0, 0, 0, 0⟩
  match f.rx_bytes with
  | none => s0
  | some a =>
      let s1 := { s0 with rx_bytes := a }
      match f.tx_bytes with
      | none => s1
      | some b =>
          let s2 := { s1 with tx_bytes := b }
          match f.rx_packets with
          | none => s2
          | some c =>
              let s3 := { s2 with rx_packets := c }
              match f.tx_packets with
              | none => s3
              | some d => { s3 with tx_packets := d }

/-! ## Collection orchestrator (metrics.py collect_metrics) -/

/-- A value stored in the snapshot dictionaries: a string, a number,
an integer counter, or None. -/
inductive MVal where
  | str (v : String)
  | num (v : ℚ)
  | int (v : Nat)
  | null
  deriving DecidableEq, Repr

/-- Optional string as a snapshot value. -/
def MVal.ofOpt : Option String → MVal
  | none => .null
  | some s => .str s

/-- The multi-unit usage dictionary produced by the memory and disk
probes. -/
structure UsageDict where
  pct : ℚ
  kB : ℚ
  deriving DecidableEq, Repr

/-- Results of the host probes consumed by one collect_metrics cycle
(each probe is an external read already wrapped with its own default). -/
structure ProbeEnv where
  device_id : Option String
  uptime : ℚ
  cpu_usage : ℚ
  memory_usage : UsageDict
  disk_usage : UsageDict
  load_1 : ℚ
  load_5 : ℚ
  load_15 : ℚ
  default_interface : Option String
  ip_address : Option String
  mac_address : Option String
  netFiles : NetFiles

/-- The snapshot assembled by collect_metrics: dictionaries are modelled
as insertion-ordered association lists, so key presence is observable. -/
structure Snapshot where
  device_id : Option String
  system_metrics : List (String × MVal)
  network_metrics : List (String × MVal)
  deriving DecidableEq, Repr

/-- collect_metrics (metrics.py lines 249-297): assembles the system and
network dictionaries; the ip/mac probes run only when a default interface
was found, and the network counter entries are added by dict.update only
in that case, else they are skipped. -/
def collect_metrics (env : ProbeEnv) : Snapshot :=
  let system_metrics : List (String × MVal) :=
    [("uptime", .num env.uptime),
     ("cpu_usage", .num env.cpu_usage),
     ("memory_percent", .num env.memory_usage.pct),
     ("memory_kb", .num env.memory_usage.kB),
     ("disk_percent", .num env.disk_usage.pct),
     ("disk_kb", .num env.disk_usage.kB),
     ("load_1", .num env.load_1),
     ("load_5", .num env.load_5),
     ("load_15", .num env.load_15)]
  let interface := env.default_interface
  let network_metrics : List (String × MVal) :=
    [("interface", MVal.ofOpt interface),
     ("ip_address", if truthyStr interface then MVal.ofOpt env.ip_address else .null),
     ("mac_address", if truthyStr interface then MVal.ofOpt env.mac_address else .null)]
  let network_metrics :=
    if truthyStr interface then
      let stats := get_network_stats env.netFiles
      network_metrics ++
        [("rx_bytes", .int stats.rx_bytes),
         ("tx_bytes", .int stats.tx_bytes),
         ("rx_packets", .int stats.rx_packets),
         ("tx_packets", .int stats.tx_packets)]
    else network_metrics
  ⟨env.device_id, system_metrics, network_metrics⟩

/-! ## Helper lemmas -/

/-- get_simulated_id only touches the side file and the call counter:
the environment, the machine-id file, the pending uuid and the
write-failure mode are unchanged, and the body runs exactly once. -/
theorem get_simulated_id_frame (w : World) :
    ((get_simulated_id w).2).containerIdEnv = w.containerIdEnv ∧
    ((get_simulated_id w).2).machineId = w.machineId ∧
    ((get_simulated_id w).2).freshUuid = w.freshUuid ∧
    ((get_simulated_id w).2).writeFails = w.writeFails ∧
    ((get_simulated_id w).2).simCalls = w.simCalls + 1 := by
  obtain ⟨env, idf, mid, uu, wf, sc⟩ := w
  unfold get_simulated_id get_simulated_id_body
  cases henv : truthyStr env <;> cases idf <;> cases wf <;>
    first
    | (rename_i s
       by_cases hs : pyStrip s = "" <;> simp [henv, hs])
    | simp [henv]

/-- get_simulated_id returns None exactly when its body raised; any
returned identifier is non-empty provided the pending uuid is non-empty. -/
theorem get_simulated_id_nonempty (w : World) (hu : w.freshUuid ≠ "") :
    (get_simulated_id w).1 = none ∨
      ∃ s, (get_simulated_id w).1 = some s ∧ s ≠ "" := by
  obtain ⟨env, idf, mid, uu, wf, sc⟩ := w
  simp only [ne_eq] at hu
  unfold get_simulated_id get_simulated_id_body
  cases henv : truthyStr env <;> cases idf <;> cases wf <;> simp [henv] <;>
    first
    | (rename_i s
       by_cases hs : pyStrip s = "" <;> simp [hs, hu])
    | simp [hu]
    | (revert henv
       unfold truthyStr
       cases env <;> simp)

/-- resolve_device_id is the wrapped get_device_id applied to the
decoration-time default and post-import world. -/
theorem resolve_device_id_eq (w : World) :
    resolve_device_id w =
      get_device_id (get_simulated_id w).1 (get_simulated_id w).2 := rfl

/-- Whatever the wrapped get_device_id returns is None or a non-empty
string, provided its captured default is and the pending uuid is
non-empty. -/
theorem get_device_id_nonempty (d : Option String) (w1 : World)
    (hd : d = none ∨ ∃ s, d = some s ∧ s ≠ "") (hu : w1.freshUuid ≠ "") :
    (get_device_id d w1).1 = none ∨
      ∃ s, (get_device_id d w1).1 = some s ∧ s ≠ "" := by
  unfold get_device_id get_device_id_body
  cases hm : w1.machineId
  · exact get_simulated_id_nonempty w1 hu
  · rename_i s
    by_cases hs : pyStrip s = ""
    · simpa [hs] using get_simulated_id_nonempty w1 hu
    · simp [hs]
  · exact hd

/-! ## Claim theorems -/

/-- C3, counterexample: in a state where both the CONTAINER_ID override
and a non-empty /etc/machine-id exist, device-identity resolution returns
the machine-id contents, not the override: get_device_id reads
/etc/machine-id first and only its fallback path consults CONTAINER_ID. -/
theorem resolve_ignores_env_override :
    (resolve_device_id
        ⟨some "env-override-id", .absent, .present "machineid0123",
          "aabbccdd", false, 0⟩).1 = some "machineid0123" ∧
    (resolve_device_id
        ⟨some "env-override-id", .absent, .present "machineid0123",
          "aabbccdd", false, 0⟩).1 ≠ some "env-override-id" := by
  constructor <;> decide

/-- C3, amended: device-identity resolution checks /etc/machine-id first;
whenever it holds non-empty (trimmed) contents, resolution returns those
contents regardless of any CONTAINER_ID override, which is consulted only
on the fallback path. -/
theorem resolve_prefers_machine_id (w : World) (s : String)
    (hm : w.machineId = .present s) (hs : pyStrip s ≠ "") :
    (resolve_device_id w).1 = some (pyStrip s) := by
  rw [resolve_device_id_eq]
  unfold get_device_id get_device_id_body
  rw [(get_simulated_id_frame w).2.1, hm]
  simp [hs]

/-- C3 witness: a concrete state exercising the amended theorem. -/
theorem resolve_prefers_machine_id_witness :
    (resolve_device_id
        ⟨some "cid", .absent, .present "mid9", "ffff0000", false, 0⟩).1 =
      some (pyStrip "mid9") :=
  resolve_prefers_machine_id
    ⟨some "cid", .absent, .present "mid9", "ffff0000", false, 0⟩ "mid9"
    rfl (by decide)

/-- C5, counterexample: with no override, no side file, no machine-id and
a failing side-file write, resolution completes without raising and yields
None: the final fallback's storage failure is swallowed by
log_exceptions(default=None) in get_simulated_id, and the decoration-time
default of get_device_id is likewise None, so the absent value is silently
substituted rather than propagated as a fatal resolver error. -/
theorem resolve_silent_none_on_storage_failure :
    (resolve_device_id ⟨none, .absent, .absent, "aabb1122", true, 0⟩).1 =
      none := by decide

/-- C5, amended: after resolution device_id is never the empty string:
it is either a non-empty identifier or None; and when every earlier step
is absent and the final fallback's storage write fails, the failure is
caught by the wrapper and resolution yields None (it does not raise). -/
theorem resolve_device_id_amended (w : World) (hu : w.freshUuid ≠ "") :
    ((resolve_device_id w).1 = none ∨
      ∃ s, (resolve_device_id w).1 = some s ∧ s ≠ "") ∧
    (truthyStr w.containerIdEnv = false → w.idFile = .absent →
      w.machineId = .absent → w.writeFails = true →
      (resolve_device_id w).1 = none) := by
  constructor
  · rw [resolve_device_id_eq]
    refine get_device_id_nonempty _ _ (get_simulated_id_nonempty w hu) ?_
    rw [(get_simulated_id_frame w).2.2.1]
    exact hu
  · intro h1 h2 h3 h4
    simp [resolve_device_id, load_metrics_module, get_simulated_id,
          get_simulated_id_body, get_device_id, get_device_id_body,
          h1, h2, h3, h4]

/-- C5 witness: concrete states exercising the amended theorem, one for
the generated-identifier path and one for the swallowed storage failure. -/
theorem resolve_device_id_amended_witness :
    ((resolve_device_id ⟨none, .absent, .absent, "ccdd3344", false, 0⟩).1 = none ∨
      ∃ s, (resolve_device_id ⟨none, .absent, .absent, "ccdd3344", false, 0⟩).1 =
        some s ∧ s ≠ "") ∧
    (resolve_device_id ⟨none, .absent, .absent, "ccdd3344", true, 0⟩).1 = none :=
  ⟨(resolve_device_id_amended ⟨none, .absent, .absent, "ccdd3344", false, 0⟩
      (by decide)).1,
   (resolve_device_id_amended ⟨none, .absent, .absent, "ccdd3344", true, 0⟩
      (by decide)).2 rfl rfl rfl rfl⟩

/-- C9: the default of get_device_id is computed eagerly at decoration
time — importing the metrics module runs the body of get_simulated_id
exactly once more, whatever the state of the machine-id file (even when
the primary lookup could never fail) — and a later failing get_device_id
call substitutes that startup-time result, not a freshly computed one. -/
theorem get_device_id_default_eager (w w2 : World)
    (h : w2.machineId = .unreadable) :
    ((load_metrics_module w).world).simCalls = w.simCalls + 1 ∧
    (get_device_id (load_metrics_module w).deviceIdDefault w2).1 =
      (get_simulated_id w).1 := by
  refine ⟨(get_simulated_id_frame w).2.2.2.2, ?_⟩
  unfold get_device_id get_device_id_body load_metrics_module
  rw [h]

/-- C9 witness: concrete import-time world and a later world whose
machine-id read raises. -/
theorem get_device_id_default_eager_witness :
    ((load_metrics_module
        ⟨none, .absent, .present "mid", "eeff5566", false, 0⟩).world).simCalls =
      0 + 1 ∧
    (get_device_id
        (load_metrics_module
          ⟨none, .absent, .present "mid", "eeff5566", false, 0⟩).deviceIdDefault
        ⟨none, .absent, .unreadable, "eeff5566", false, 1⟩).1 =
      (get_simulated_id ⟨none, .absent, .present "mid", "eeff5566", false, 0⟩).1 :=
  get_device_id_default_eager
    ⟨none, .absent, .present "mid", "eeff5566", false, 0⟩
    ⟨none, .absent, .unreadable, "eeff5566", false, 1⟩ rfl

/-- C4, counterexample: the four counter reads share one try block, so
they are not independent: with rx_bytes unreadable but tx_bytes,
rx_packets and tx_packets readable (7, 8, 9), every counter comes back 0 —
the readable tx_bytes does not hold its read value 7. -/
theorem get_network_stats_not_independent :
    get_network_stats ⟨none, some 7, some 8, some 9⟩ = ⟨0, 0, 0, 0⟩ ∧
    (get_network_stats ⟨none, some 7, some 8, some 9⟩).tx_bytes ≠ 7 := by
  constructor <;> decide

/-- C4, amended: the counters are read sequentially (rx_bytes, tx_bytes,
rx_packets, tx_packets) inside a single try block: a counter holds its
read value exactly when it and every counter before it are readable, and
is 0 otherwise (so the first unreadable counter zeroes itself and all
later ones, while earlier counters keep their values). -/
theorem get_network_stats_sequential (f : NetFiles) :
    (get_network_stats f).rx_bytes = f.rx_bytes.getD 0 ∧
    (get_network_stats f).tx_bytes =
      (if f.rx_bytes.isSome then f.tx_bytes.getD 0 else 0) ∧
    (get_network_stats f).rx_packets =
      (if f.rx_bytes.isSome ∧ f.tx_bytes.isSome then f.rx_packets.getD 0 else 0) ∧
    (get_network_stats f).tx_packets =
      (if f.rx_bytes.isSome ∧ f.tx_bytes.isSome ∧ f.rx_packets.isSome then
        f.tx_packets.getD 0 else 0) := by
  obtain ⟨a, b, c, d⟩ := f
  cases a <;> cases b <;> cases c <;> cases d <;>
    simp [get_network_stats]

/-- C2, counterexample: when no default network interface is found,
collect_metrics omits the four network counters from the snapshot instead
of including them with value zero — the network dictionary has only the
three identity keys, so the key set differs from a cycle that found an
interface. -/
theorem collect_metrics_counters_absent :
    ((collect_metrics
        ⟨some "d", 1, 2, ⟨3, 4⟩, ⟨5, 6⟩, 7, 8, 9, none, none, none,
          ⟨some 1, some 2, some 3, some 4⟩⟩).network_metrics.map Prod.fst) =
      ["interface", "ip_address", "mac_address"] ∧
    "rx_bytes" ∉
      ((collect_metrics
        ⟨some "d", 1, 2, ⟨3, 4⟩, ⟨5, 6⟩, 7, 8, 9, none, none, none,
          ⟨some 1, some 2, some 3, some 4⟩⟩).network_metrics.map Prod.fst) := by
  constructor <;> decide

/-- C2, amended: the system-metrics key set is fixed in every cycle; when
no default interface is found the network dictionary holds exactly the
three identity keys with value None and the four counters are absent,
while with an interface the network dictionary holds all seven keys — so
the key set depends on whether an interface was found. -/
theorem collect_metrics_schema (env : ProbeEnv) :
    (collect_metrics env).system_metrics.map Prod.fst =
      ["uptime", "cpu_usage", "memory_percent", "memory_kb", "disk_percent",
       "disk_kb", "load_1", "load_5", "load_15"] ∧
    (env.default_interface = none →
      (collect_metrics env).network_metrics =
        [("interface", .null), ("ip_address", .null), ("mac_address", .null)]) ∧
    (truthyStr env.default_interface = true →
      (collect_metrics env).network_metrics.map Prod.fst =
        ["interface", "ip_address", "mac_address", "rx_bytes", "tx_bytes",
         "rx_packets", "tx_packets"]) := by
  refine ⟨by simp [collect_metrics], ?_, ?_⟩
  · intro h
    simp [collect_metrics, h, truthyStr, MVal.ofOpt]
  · intro h
    simp [collect_metrics, h]

/-- C2 witness: concrete probe environments without and with a default
interface. -/
theorem collect_metrics_schema_witness :
    (collect_metrics
        ⟨some "d", 1, 2, ⟨3, 4⟩, ⟨5, 6⟩, 7, 8, 9, none, some "ip", some "mac",
          ⟨some 1, some 2, some 3, some 4⟩⟩).network_metrics =
      [("interface", .null), ("ip_address", .null), ("mac_address", .null)] ∧
    (collect_metrics
        ⟨some "d", 1, 2, ⟨3, 4⟩, ⟨5, 6⟩, 7, 8, 9, some "eth0", some "ip",
          some "mac", ⟨some 1, some 2, some 3, some 4⟩⟩).network_metrics.map
        Prod.fst =
      ["interface", "ip_address", "mac_address", "rx_bytes", "tx_bytes",
       "rx_packets", "tx_packets"] :=
  ⟨(collect_metrics_schema
      ⟨some "d", 1, 2, ⟨3, 4⟩, ⟨5, 6⟩, 7, 8, 9, none, some "ip", some "mac",
        ⟨some 1, some 2, some 3, some 4⟩⟩).2.1 rfl,
   (collect_metrics_schema
      ⟨some "d", 1, 2, ⟨3, 4⟩, ⟨5, 6⟩, 7, 8, 9, some "eth0", some "ip",
        some "mac", ⟨some 1, some 2, some 3, some 4⟩⟩).2.2 (by decide)⟩

/-- C8: if the two /proc/stat samples are identical the CPU probe reports
exactly 0.0 (the zero total delta is guarded, no division happens), and
with a non-zero total delta it reports 100 * (1 - delta idle / delta
total) rounded to 2 decimals. -/
theorem get_cpu_usage_spec (idle1 total1 idle2 total2 : ℤ) :
    ((idle2, total2) = (idle1, total1) →
      get_cpu_usage idle1 total1 idle2 total2 = 0) ∧
    (total2 - total1 ≠ 0 →
      get_cpu_usage idle1 total1 idle2 total2 =
        round2 (100 * (1 - ((idle2 - idle1 : ℤ) : ℚ) / ((total2 - total1 : ℤ) : ℚ)))) := by
  constructor
  · intro h
    obtain ⟨rfl, rfl⟩ := Prod.mk.injEq .. ▸ h
    simp [get_cpu_usage]
  · intro h
    simp [get_cpu_usage, h]

/-- C8 witness: identical samples give 0.0; distinct samples give the
rounded formula. -/
theorem get_cpu_usage_spec_witness :
    get_cpu_usage 5 9 5 9 = 0 ∧
    get_cpu_usage 3 10 5 14 = round2 (100 * (1 - ((5 - 3 : ℤ) : ℚ) / ((14 - 10 : ℤ) : ℚ))) :=
  ⟨(get_cpu_usage_spec 5 9 5 9).1 rfl,
   (get_cpu_usage_spec 3 10 5 14).2 (by decide)⟩

/-- C10: the first invocation of a rate_limiter-wrapped operation never
sleeps: with the last-call timestamp initialised to 0.0, any entry clock
reading of at least the configured interval makes the computed wait time
non-positive, so no sleep happens and the wrapped call runs immediately;
the new last-call timestamp is the clock reading taken after the wrapped
call returned, so later pacing is measured from its completion. -/
theorem rate_limiter_first_call (cps now finish : ℚ) (h : 1 / cps ≤ now) :
    (rate_limiter_call cps rlInit now finish).wait_time ≤ 0 ∧
    (rate_limiter_call cps rlInit now finish).slept = 0 ∧
    (rate_limiter_call cps rlInit now finish).state.last_called = finish := by
  have hw : 1 / cps - (now - (0 : ℚ)) ≤ 0 := by linarith
  refine ⟨hw, ?_, rfl⟩
  simp only [rate_limiter_call, rlInit]
  rw [if_neg (by simpa using not_lt.mpr hw)]

/-- C10 witness: one call per second, first call at clock time 5
finishing at 6. -/
theorem rate_limiter_first_call_witness :
    (rate_limiter_call 1 rlInit 5 6).wait_time ≤ 0 ∧
    (rate_limiter_call 1 rlInit 5 6).slept = 0 ∧
    (rate_limiter_call 1 rlInit 5 6).state.last_called = 6 :=
  rate_limiter_first_call 1 5 6 (by norm_num)

/-- C6: a collector answering the PATCH with 404 and the POST with 201
makes one post_metrics invocation issue exactly one PATCH then one POST to
the same url with the same body and return the 201 creation response; a
collector answering the PATCH with 200 makes it issue exactly one PATCH,
no POST, and return that response. -/
theorem post_metrics_upsert {B : Type} (collector : Nat → Nat) (m : B)
    (u : String) :
    (collector 0 = 404 → collector 1 = 201 →
      post_metrics collector m u =
        ([⟨.patch, u, m⟩, ⟨.post, u, m⟩], 1, 201)) ∧
    (collector 0 = 200 →
      post_metrics collector m u = ([⟨.patch, u, m⟩], 0, 200)) := by
  constructor
  · intro h4 h2
    simp [post_metrics, h4, h2]
  · intro h
    simp [post_metrics, h]

/-- C6 witness: concrete collectors for both scenarios. -/
theorem post_metrics_upsert_witness :
    post_metrics (fun i => if i = 0 then 404 else 201) () "u" =
      ([⟨.patch, "u", ()⟩, ⟨.post, "u", ()⟩], 1, 201) ∧
    post_metrics (fun _ => 200) () "u" = ([⟨.patch, "u", ()⟩], 0, 200) :=
  ⟨(post_metrics_upsert (fun i => if i = 0 then 404 else 201) () "u").1 rfl rfl,
   (post_metrics_upsert (fun _ => 200) () "u").2 rfl⟩

/-! ## Retry loop lemmas -/

/-- Whether an attempt outcome counts as success for the retry loop. -/
def isOkE {E A : Type} : Except E A → Bool
  | .ok _ => true
  | .error _ => false

/-- When every attempted invocation fails, the retry loop uses its whole
budget: r invocations, r fixed-delay sleeps, then the terminal error
naming the operation and max_retries. -/
theorem retryLoop_all_fail {A : Type} (name : String) (delay : ℚ) (n : Nat)
    (op : Nat → Except String A) :
    ∀ r i, (∀ k, k < r → isOkE (op (i + k)) = false) →
      retryLoop name delay n op i r =
        ⟨.error ⟨name, n⟩, r, List.replicate r delay⟩ := by
  intro r
  induction r with
  | zero => intro i _; rfl
  | succ r ih =>
      intro i hfail
      have h0 : isOkE (op i) = false := by simpa using hfail 0 (Nat.succ_pos r)
      unfold retryLoop
      cases hop : op i with
      | ok a => rw [hop] at h0; simp [isOkE] at h0
      | error e =>
          have := ih (i + 1) (fun k hk => by
            have := hfail (k + 1) (Nat.succ_lt_succ hk)
            simpa [Nat.add_assoc, Nat.add_comm 1 k] using this)
          simp [this, List.replicate_succ]

/-- When the k-th invocation (0-based, within budget) is the first to
succeed, the retry loop returns its result after exactly k + 1
invocations and k fixed-delay sleeps. -/
theorem retryLoop_first_success {A : Type} (name : String) (delay : ℚ)
    (n : Nat) (op : Nat → Except String A) :
    ∀ r i k a, k < r → op (i + k) = .ok a →
      (∀ j, j < k → isOkE (op (i + j)) = false) →
      retryLoop name delay n op i r =
        ⟨.ok a, k + 1, List.replicate k delay⟩ := by
  intro r
  induction r with
  | zero => intro i k a hk; exact absurd hk (Nat.not_lt_zero k)
  | succ r ih =>
      intro i k a hk hok hfail
      unfold retryLoop
      cases k with
      | zero =>
          simp only [Nat.add_zero] at hok
          simp [hok]
      | succ k =>
          have h0 : isOkE (op i) = false := by simpa using hfail 0 (Nat.succ_pos k)
          cases hop : op i with
          | ok a0 => rw [hop] at h0; simp [isOkE] at h0
          | error e =>
              have := ih (i + 1) k a (Nat.lt_of_succ_lt_succ hk)
                (by simpa [Nat.add_assoc, Nat.add_comm 1 k] using hok)
                (fun j hj => by
                  have := hfail (j + 1) (Nat.succ_lt_succ hj)
                  simpa [Nat.add_assoc, Nat.add_comm 1 j] using this)
              simp [this, List.replicate_succ]

/-- The retry loop never invokes the operation more often than its
remaining budget, and every sleep it performs has the fixed duration. -/
theorem retryLoop_calls_le {A : Type} (name : String) (delay : ℚ) (n : Nat)
    (op : Nat → Except String A) :
    ∀ r i, (retryLoop name delay n op i r).calls ≤ r ∧
      ∀ q ∈ (retryLoop name delay n op i r).sleeps, q = delay := by
  intro r
  induction r with
  | zero => intro i; exact ⟨Nat.le_refl 0, by intro q hq; simp [retryLoop] at hq⟩
  | succ r ih =>
      intro i
      unfold retryLoop
      cases hop : op i with
      | ok a => exact ⟨Nat.succ_le_succ (Nat.zero_le r), by intro q hq; simp at hq⟩
      | error e =>
          refine ⟨Nat.succ_le_succ (ih (i + 1)).1, ?_⟩
          intro q hq
          simp only [List.mem_cons] at hq
          rcases hq with rfl | hq
          · rfl
          · exact (ih (i + 1)).2 q hq

/-- C7: for any operation and any max_retries of at least 1, the retry
wrapper invokes the operation at most max_retries times; every sleep it
performs has the fixed delay (no backoff); the first successful attempt k
ends the run with that result after k + 1 invocations; and when all
max_retries attempts fail it raises the terminal failure naming the
operation and the attempt count after exactly max_retries invocations
(never a further one). -/
theorem retry_spec {A : Type} (name : String) (delay : ℚ) (n : Nat)
    (op : Nat → Except String A) (_hn : 1 ≤ n) :
    (retryRun name delay n op).calls ≤ n ∧
    (∀ q ∈ (retryRun name delay n op).sleeps, q = delay) ∧
    (∀ k a, k < n → op k = .ok a → (∀ j, j < k → isOkE (op j) = false) →
      retryRun name delay n op = ⟨.ok a, k + 1, List.replicate k delay⟩) ∧
    ((∀ k, k < n → isOkE (op k) = false) →
      retryRun name delay n op =
        ⟨.error ⟨name, n⟩, n, List.replicate n delay⟩) := by
  refine ⟨(retryLoop_calls_le name delay n op n 0).1,
          (retryLoop_calls_le name delay n op n 0).2, ?_, ?_⟩
  · intro k a hk hok hfail
    exact retryLoop_first_success name delay n op n 0 k a hk
      (by simpa using hok) (fun j hj => by simpa using hfail j hj)
  · intro hfail
    exact retryLoop_all_fail name delay n op n 0
      (fun k hk => by simpa using hfail k hk)

/-- C7 witness: a concrete operation succeeding on its second attempt and
one failing always, with budget 3. -/
theorem retry_spec_witness :
    retryRun "post_metrics" 10 3
        (fun i => if i = 1 then .ok 42 else .error "boom") =
      ⟨.ok 42, 2, [10]⟩ ∧
    retryRun "post_metrics" 10 3 (fun _ => (.error "boom" : Except String Nat)) =
      ⟨.error ⟨"post_metrics", 3⟩, 3, [10, 10, 10]⟩ :=
  ⟨(retry_spec "post_metrics" 10 3
      (fun i => if i = 1 then .ok 42 else .error "boom") (by decide)).2.2.1
      1 42 (by decide) rfl (by decide),
   (retry_spec "post_metrics" 10 3
      (fun _ => (.error "boom" : Except String Nat)) (by decide)).2.2.2
      (by decide)⟩

/-- C1, counterexample: against a collector answering every request with
500, the wrapped delivery performs exactly one PATCH/POST cycle (a single
PATCH) and returns the 500 response — not 5 cycles and not a terminal
error: post_metrics returns the non-2xx response instead of raising, so
the retry wrapper sees a success and never retries. -/
theorem deliver_500_counterexample :
    (deliver (fun _ => 500) () "http://collector/api/devices/").calls = 1 ∧
    (deliver (fun _ => 500) () "http://collector/api/devices/").result =
      .ok ([⟨.patch, "http://collector/api/devices/", ()⟩], 0, 500) ∧
    (deliver (fun _ => 500) () "http://collector/api/devices/").calls ≠ 5 := by
  refine ⟨rfl, rfl, by decide⟩

/-- C1, amended: against a collector answering every request with 500,
the wrapped delivery invokes the core exactly once, sleeps never, and
returns (rather than raises) the single-PATCH cycle's 500 response; the
retry budget of 5 applies only when the core raises. -/
theorem deliver_500_single_cycle {B : Type} (collector : Nat → Nat)
    (h : ∀ i, collector i = 500) (m : B) (u : String) :
    deliver collector m u = ⟨.ok ([⟨.patch, u, m⟩], 0, 500), 1, []⟩ := by
  have hp : post_metrics collector m u = ([⟨.patch, u, m⟩], 0, 500) := by
    simp [post_metrics, h 0]
  unfold deliver retryRun
  rw [retryLoop_first_success "post_metrics" 10 5 _ 5 0 0
      (post_metrics collector m u) (by norm_num) rfl
      (fun j hj => absurd hj (Nat.not_lt_zero j)), hp]
  rfl

/-- C1 witness: the concrete always-500 collector. -/
theorem deliver_500_single_cycle_witness :
    deliver (fun _ => 500) () "u" =
      ⟨.ok ([⟨.patch, "u", ()⟩], 0, 500), 1, []⟩ :=
  deliver_500_single_cycle (fun _ => 500) (fun _ => rfl) () "u"

end Agent
